import Mathlib

/-!
Verification of the ghglim workflow-reporting tool (src/main.rs) against its
natural-language specification.

The development shallowly embeds the program's pure core:

* the timestamp parsing chain `parse_github_timestamp_to_local`, including a
  faithful model of the chrono `DateTime::parse_from_str` behaviour on the
  four concrete format strings used by the program (in chrono, a literal `Z`
  in a format string matches the character but sets no UTC offset, and
  constructing a `DateTime` from parsed fields without an offset fails);
* the serde-style JSON decoding of the two response shapes;
* `get_last_run_date`, `display_workflows` and `main` as pure functions over
  an explicit HTTP environment, with console output modelled as structured
  field lists and an error exit modelled as `Except.error`.
-/

/-- A timezone-aware instant: seconds since the Unix epoch (UTC) plus a
nanosecond-of-second component.  Conversion to the local timezone for display
preserves the instant, so theorems are stated on this UTC value. -/
structure Instant where
  sec : Int
  nano : Nat
deriving DecidableEq, Repr

/-- The character for a decimal digit value. -/
def digitChar (n : Nat) : Char := Char.ofNat (48 + n)

/-- ASCII decimal digit test, as chrono's scanner uses. -/
def isDigit (c : Char) : Bool := 48 ≤ c.toNat && c.toNat ≤ 57

/-- Numeric value of a decimal digit character. -/
def digitVal (c : Char) : Nat := c.toNat - 48

/-- Greedily take at most `max` leading decimal digits. -/
def takeDigits : Nat → List Char → List Char × List Char
  | 0, s => ([], s)
  | _ + 1, [] => ([], [])
  | k + 1, c :: cs =>
    if isDigit c then
      let p := takeDigits k cs
      (c :: p.1, p.2)
    else ([], c :: cs)

/-- Value of a list of digit characters read in base 10. -/
def digitsVal (ds : List Char) : Nat :=
  ds.foldl (fun a c => a * 10 + digitVal c) 0

/-- chrono's `scan::number`: consume between `mn` and `mx` digits greedily. -/
def scanNum (mn mx : Nat) (s : List Char) : Option (Nat × List Char) :=
  let p := takeDigits mx s
  if mn ≤ p.1.length then some (digitsVal p.1, p.2) else none

/-- Match one literal character, as a literal item in a chrono format string. -/
def scanLit (c : Char) (s : List Char) : Option (List Char) :=
  match s with
  | [] => none
  | x :: rest => if x = c then some rest else none

/-- chrono's parsing of the `%Y` numeric item: an explicit sign admits a wide
digit count, an unsigned year reads at most four digits. -/
def scanSigned4 (s : List Char) : Option (Int × List Char) :=
  match s with
  | [] => none
  | c :: cs =>
    if c = '+' then (scanNum 1 6 cs).map (fun p => ((p.1 : Int), p.2))
    else if c = '-' then (scanNum 1 6 cs).map (fun p => (-(p.1 : Int), p.2))
    else (scanNum 1 4 (c :: cs)).map (fun p => ((p.1 : Int), p.2))

/-- chrono's `%.3f` fixed item: when the next character is a dot, exactly
three fractional digits (milliseconds) are required; otherwise nothing is
consumed and the fractional part is zero.  The result is in nanoseconds. -/
def scanFrac3 (s : List Char) : Option (Nat × List Char) :=
  match s with
  | [] => some (0, [])
  | c :: cs =>
    if c = '.' then (scanNum 3 3 cs).map (fun p => (p.1 * 1000000, p.2))
    else some (0, c :: cs)

/-- Drop one optional colon, as chrono allows between offset hours/minutes. -/
def dropColon (s : List Char) : List Char :=
  match s with
  | [] => []
  | c :: cs => if c = ':' then cs else c :: cs

/-- Magnitude part of a numeric timezone offset: two hour digits, an optional
colon, two minute digits with minutes below 60; result in seconds. -/
def scanOffMag (s : List Char) : Option (Nat × List Char) :=
  (scanNum 2 2 s).bind fun p =>
  (scanNum 2 2 (dropColon p.2)).bind fun q =>
  if q.1 ≤ 59 then some (p.1 * 3600 + q.1 * 60, q.2) else none

/-- chrono's `%z` item: a signed numeric offset `±HH:MM` or `±HHMM`. -/
def scanOffset (s : List Char) : Option (Int × List Char) :=
  match s with
  | [] => none
  | c :: cs =>
    if c = '+' then (scanOffMag cs).map (fun p => ((p.1 : Int), p.2))
    else if c = '-' then (scanOffMag cs).map (fun p => (-(p.1 : Int), p.2))
    else none

/-- The date-and-time fields shared by all four format strings
(`%Y-%m-%dT%H:%M:%S`). -/
structure BodyFields where
  year : Int
  month : Nat
  day : Nat
  hour : Nat
  minute : Nat
  second : Nat
deriving DecidableEq, Repr

/-- Parse the common `%Y-%m-%dT%H:%M:%S` prefix of the four format strings. -/
def chronoParseBody (s : List Char) : Option (BodyFields × List Char) :=
  (scanSigned4 s).bind fun py =>
  (scanLit '-' py.2).bind fun s1 =>
  (scanNum 1 2 s1).bind fun pmo =>
  (scanLit '-' pmo.2).bind fun s2 =>
  (scanNum 1 2 s2).bind fun pd =>
  (scanLit 'T' pd.2).bind fun s3 =>
  (scanNum 1 2 s3).bind fun ph =>
  (scanLit ':' ph.2).bind fun s4 =>
  (scanNum 1 2 s4).bind fun pmi =>
  (scanLit ':' pmi.2).bind fun s5 =>
  (scanNum 1 2 s5).map fun ps =>
  (⟨py.1, pmo.1, pd.1, ph.1, pmi.1, ps.1⟩, ps.2)

/-- Leap-year predicate of the proleptic Gregorian calendar. -/
def isLeapYear (y : Int) : Bool :=
  (Int.emod y 4 == 0 && Int.emod y 100 != 0) || Int.emod y 400 == 0

/-- Number of days in a month of the proleptic Gregorian calendar. -/
def daysInMonth (y : Int) (m : Nat) : Nat :=
  match m with
  | 1 => 31
  | 2 => if isLeapYear y then 29 else 28
  | 3 => 31
  | 4 => 30
  | 5 => 31
  | 6 => 30
  | 7 => 31
  | 8 => 31
  | 9 => 30
  | 10 => 31
  | 11 => 30
  | 12 => 31
  | _ => 0

/-- Days since the Unix epoch of a proleptic Gregorian civil date
(the standard era-based algorithm, with floor division). -/
def daysFromCivil (y : Int) (m d : Nat) : Int :=
  let yy : Int := if m ≤ 2 then y - 1 else y
  let era : Int := Int.ediv yy 400
  let yoe : Int := yy - era * 400
  let mp : Int := Int.emod ((m : Int) + 9) 12
  let doy : Int := Int.ediv (153 * mp + 2) 5 + (d : Int) - 1
  let doe : Int := yoe * 365 + Int.ediv yoe 4 - Int.ediv yoe 100 + doy
  era * 146097 + doe - 719468

/-- chrono's `Parsed::to_datetime` when the parsed fields carry a UTC offset:
validate the fields and build the instant.  A parsed second of 60 denotes a
leap second, which chrono folds into second 59 with an extra 10^9
nanoseconds. -/
def toDateTimeWithOffset (f : BodyFields) (nano : Nat) (offSec : Int) : Option Instant :=
  if 1 ≤ f.month ∧ f.month ≤ 12 ∧ 1 ≤ f.day ∧ f.day ≤ daysInMonth f.year f.month ∧
     f.hour ≤ 23 ∧ f.minute ≤ 59 ∧ f.second ≤ 60 ∧
     f.year.natAbs ≤ 262143 ∧ offSec.natAbs ≤ 86399 then
    some { sec := daysFromCivil f.year f.month f.day * 86400 +
                  ((f.hour : Int) * 3600 + (f.minute : Int) * 60 +
                   ((min f.second 59 : Nat) : Int)) - offSec,
           nano := nano + (if f.second = 60 then 1000000000 else 0) }
  else none

/-- chrono's `Parsed::to_datetime` when no UTC offset was parsed: the
construction of a `DateTime` fails (the "not enough information" error),
whatever the other fields hold.  A literal `Z` in a format string matches the
character but never sets the offset. -/
def toDateTimeNoOffset (_f : BodyFields) (_nano : Nat) : Option Instant := none

/-- First format string of the fallback chain, with fractional seconds and a
literal `Z`. -/
def chronoParseFmt1 (s : List Char) : Option Instant :=
  (chronoParseBody s).bind fun p =>
  (scanFrac3 p.2).bind fun q =>
  (scanLit 'Z' q.2).bind fun r =>
  if r = [] then toDateTimeNoOffset p.1 q.1 else none

/-- Second format string, without fractional seconds, with a literal `Z`. -/
def chronoParseFmt2 (s : List Char) : Option Instant :=
  (chronoParseBody s).bind fun p =>
  (scanLit 'Z' p.2).bind fun r =>
  if r = [] then toDateTimeNoOffset p.1 0 else none

/-- Third format string, with fractional seconds and a `%z` numeric offset. -/
def chronoParseFmt3 (s : List Char) : Option Instant :=
  (chronoParseBody s).bind fun p =>
  (scanFrac3 p.2).bind fun q =>
  (scanOffset q.2).bind fun r =>
  if r.2 = [] then toDateTimeWithOffset p.1 q.1 r.1 else none

/-- Fourth format string, without fractional seconds, with a `%z` offset. -/
def chronoParseFmt4 (s : List Char) : Option Instant :=
  (chronoParseBody s).bind fun p =>
  (scanOffset p.2).bind fun r =>
  if r.2 = [] then toDateTimeWithOffset p.1 0 r.1 else none

/-- Rust's `str::replace("Z", "+00:00")`: every `Z` becomes `+00:00`. -/
def replaceZ : List Char → List Char
  | [] => []
  | c :: cs =>
    if c = 'Z' then '+' :: '0' :: '0' :: ':' :: '0' :: '0' :: replaceZ cs
    else c :: replaceZ cs

/-- The timestamp parsing function of src/main.rs: try the two `Z`-literal
format strings, then the two `%z` format strings on the string with `Z`
replaced by `+00:00`, accepting the first success.  The final conversion of
the parsed value to the local timezone preserves the instant, so the model
returns the UTC instant. -/
def parse_github_timestamp_to_local (s : List Char) : Option Instant :=
  match chronoParseFmt1 s with
  | some v => some v
  | none =>
    match chronoParseFmt2 s with
    | some v => some v
    | none =>
      match chronoParseFmt3 (replaceZ s) with
      | some v => some v
      | none => chronoParseFmt4 (replaceZ s)

/-- Two-digit zero-padded decimal rendering. -/
def pad2 (n : Nat) : List Char := [digitChar (n / 10), digitChar (n % 10)]

/-- Three-digit zero-padded decimal rendering. -/
def pad3 (n : Nat) : List Char :=
  [digitChar (n / 100), digitChar (n / 10 % 10), digitChar (n % 10)]

/-- Four-digit zero-padded decimal rendering. -/
def pad4 (n : Nat) : List Char :=
  [digitChar (n / 1000), digitChar (n / 100 % 10), digitChar (n / 10 % 10), digitChar (n % 10)]

/-- The `YYYY-MM-DDTHH:MM:SS` body shared by all conforming timestamps. -/
def renderBody (y mo d h mi s : Nat) : List Char :=
  pad4 y ++ '-' :: (pad2 mo ++ '-' :: (pad2 d ++ 'T' :: (pad2 h ++ ':' :: (pad2 mi ++ ':' :: pad2 s))))

/-- UTC designator of a conforming timestamp: a literal `Z` or an explicit
numeric offset `±HH:MM`. -/
inductive TsSuffix
  | zulu
  | numOff (neg : Bool) (hh mm : Nat)
deriving DecidableEq, Repr

/-- Components of a timestamp conforming to one of the four supported format
patterns: a calendar date and time of day, optional millisecond fraction, and
a UTC designator. -/
structure TsComp where
  year : Nat
  month : Nat
  day : Nat
  hour : Nat
  minute : Nat
  second : Nat
  frac : Option Nat
  suffix : TsSuffix
deriving DecidableEq, Repr

/-- Optional fractional part, rendered as a dot plus three digits. -/
def renderFrac : Option Nat → List Char
  | none => []
  | some f => '.' :: pad3 f

/-- Rendering of the UTC designator. -/
def renderSuffix : TsSuffix → List Char
  | .zulu => ['Z']
  | .numOff neg hh mm => (if neg then '-' else '+') :: (pad2 hh ++ ':' :: pad2 mm)

/-- The conforming string denoted by timestamp components. -/
def render (c : TsComp) : List Char :=
  renderBody c.year c.month c.day c.hour c.minute c.second ++
    renderFrac c.frac ++ renderSuffix c.suffix

/-- Validity of an optional millisecond fraction. -/
def fracOk : Option Nat → Prop
  | none => True
  | some f => f < 1000

instance : ∀ o, Decidable (fracOk o)
  | none => .isTrue trivial
  | some f => inferInstanceAs (Decidable (f < 1000))

/-- Validity of a numeric UTC designator. -/
def suffixOk : TsSuffix → Prop
  | .zulu => True
  | .numOff _ hh mm => hh ≤ 23 ∧ mm ≤ 59

instance : ∀ x, Decidable (suffixOk x)
  | .zulu => .isTrue trivial
  | .numOff _ hh mm => inferInstanceAs (Decidable (hh ≤ 23 ∧ mm ≤ 59))

/-- A component record denotes a real calendar instant renderable in the
supported formats. -/
def TsComp.Valid (c : TsComp) : Prop :=
  c.year < 10000 ∧ 1 ≤ c.month ∧ c.month ≤ 12 ∧ 1 ≤ c.day ∧
  c.day ≤ daysInMonth (c.year : Int) c.month ∧ c.hour ≤ 23 ∧ c.minute ≤ 59 ∧
  c.second ≤ 59 ∧ fracOk c.frac ∧ suffixOk c.suffix

instance (c : TsComp) : Decidable c.Valid := by
  unfold TsComp.Valid
  infer_instance

/-- Seconds east of UTC denoted by the UTC designator. -/
def suffixOffsetSec : TsSuffix → Int
  | .zulu => 0
  | .numOff neg hh mm => (if neg then -1 else 1) * ((hh : Int) * 3600 + (mm : Int) * 60)

/-- Nanoseconds denoted by the optional millisecond fraction. -/
def fracNanos : Option Nat → Nat
  | none => 0
  | some f => f * 1000000

/-- The reference UTC instant denoted by conforming timestamp components. -/
def refInstant (c : TsComp) : Instant :=
  { sec := daysFromCivil (c.year : Int) c.month c.day * 86400 +
           ((c.hour : Int) * 3600 + (c.minute : Int) * 60 + (c.second : Int)) -
           suffixOffsetSec c.suffix,
    nano := fracNanos c.frac }

theorem digitVal_digitChar (k : Nat) (hk : k ≤ 9) : digitVal (digitChar k) = k := by
  interval_cases k <;> decide

theorem isDigit_digitChar (k : Nat) (hk : k ≤ 9) : isDigit (digitChar k) = true := by
  interval_cases k <;> decide

theorem digitChar_ne_plus (k : Nat) (hk : k ≤ 9) : ¬ digitChar k = '+' := by
  interval_cases k <;> decide

theorem digitChar_ne_minus (k : Nat) (hk : k ≤ 9) : ¬ digitChar k = '-' := by
  interval_cases k <;> decide

theorem digitChar_ne_dot (k : Nat) (hk : k ≤ 9) : ¬ digitChar k = '.' := by
  interval_cases k <;> decide

theorem digitChar_ne_Z (k : Nat) (hk : k ≤ 9) : ¬ digitChar k = 'Z' := by
  interval_cases k <;> decide

theorem scanNum_pad2 (n : Nat) (hn : n < 100) (rest : List Char) :
    scanNum 1 2 (pad2 n ++ rest) = some (n, rest) := by
  have h1 : n / 10 ≤ 9 := by omega
  have h2 : n % 10 ≤ 9 := by omega
  simp [scanNum, pad2, takeDigits, isDigit_digitChar _ h1, isDigit_digitChar _ h2,
        digitsVal, digitVal_digitChar _ h1, digitVal_digitChar _ h2]
  omega

theorem scanNum22_pad2 (n : Nat) (hn : n < 100) (rest : List Char) :
    scanNum 2 2 (pad2 n ++ rest) = some (n, rest) := by
  have h1 : n / 10 ≤ 9 := by omega
  have h2 : n % 10 ≤ 9 := by omega
  simp [scanNum, pad2, takeDigits, isDigit_digitChar _ h1, isDigit_digitChar _ h2,
        digitsVal, digitVal_digitChar _ h1, digitVal_digitChar _ h2]
  omega

theorem scanNum_pad3 (n : Nat) (hn : n < 1000) (rest : List Char) :
    scanNum 3 3 (pad3 n ++ rest) = some (n, rest) := by
  have h1 : n / 100 ≤ 9 := by omega
  have h2 : n / 10 % 10 ≤ 9 := by omega
  have h3 : n % 10 ≤ 9 := by omega
  simp [scanNum, pad3, takeDigits, isDigit_digitChar _ h1, isDigit_digitChar _ h2,
        isDigit_digitChar _ h3, digitsVal, digitVal_digitChar _ h1,
        digitVal_digitChar _ h2, digitVal_digitChar _ h3]
  omega

theorem scanNum_pad4 (n : Nat) (hn : n < 10000) (rest : List Char) :
    scanNum 1 4 (pad4 n ++ rest) = some (n, rest) := by
  have h1 : n / 1000 ≤ 9 := by omega
  have h2 : n / 100 % 10 ≤ 9 := by omega
  have h3 : n / 10 % 10 ≤ 9 := by omega
  have h4 : n % 10 ≤ 9 := by omega
  simp [scanNum, pad4, takeDigits, isDigit_digitChar _ h1, isDigit_digitChar _ h2,
        isDigit_digitChar _ h3, isDigit_digitChar _ h4, digitsVal,
        digitVal_digitChar _ h1, digitVal_digitChar _ h2, digitVal_digitChar _ h3,
        digitVal_digitChar _ h4]
  omega

theorem scanSigned4_pad4 (n : Nat) (hn : n < 10000) (rest : List Char) :
    scanSigned4 (pad4 n ++ rest) = some ((n : Int), rest) := by
  have h1 : n / 1000 ≤ 9 := by omega
  simp only [pad4, List.cons_append, List.nil_append, scanSigned4]
  rw [if_neg (digitChar_ne_plus _ h1), if_neg (digitChar_ne_minus _ h1)]
  have := scanNum_pad4 n hn rest
  simp only [pad4, List.cons_append, List.nil_append] at this
  simp [this]

theorem scanLit_cons (c : Char) (rest : List Char) : scanLit c (c :: rest) = some rest := by
  simp [scanLit]

theorem chronoParseBody_render (y mo d h mi s : Nat) (hy : y < 10000) (hmo : mo < 100)
    (hd : d < 100) (hh : h < 100) (hmi : mi < 100) (hs : s < 100) (rest : List Char) :
    chronoParseBody (renderBody y mo d h mi s ++ rest) =
      some (⟨(y : Int), mo, d, h, mi, s⟩, rest) := by
  simp only [renderBody, List.append_assoc, List.cons_append]
  rw [chronoParseBody, scanSigned4_pad4 y hy]
  simp only [Option.some_bind, scanLit_cons, scanNum_pad2 mo hmo, scanNum_pad2 d hd,
    scanNum_pad2 h hh, scanNum_pad2 mi hmi, scanNum_pad2 s hs, Option.map_some']

theorem chronoParseFmt1_none (s : List Char) : chronoParseFmt1 s = none := by
  rw [chronoParseFmt1]
  cases hb : chronoParseBody s with
  | none => rfl
  | some p =>
    rw [Option.some_bind]
    cases hf : scanFrac3 p.2 with
    | none => rfl
    | some q =>
      rw [Option.some_bind]
      cases hl : scanLit 'Z' q.2 with
      | none => rfl
      | some r =>
        rw [Option.some_bind, toDateTimeNoOffset]
        split <;> rfl

theorem chronoParseFmt2_none (s : List Char) : chronoParseFmt2 s = none := by
  rw [chronoParseFmt2]
  cases hb : chronoParseBody s with
  | none => rfl
  | some p =>
    rw [Option.some_bind]
    cases hl : scanLit 'Z' p.2 with
    | none => rfl
    | some r =>
      rw [Option.some_bind, toDateTimeNoOffset]
      split <;> rfl

theorem replaceZ_append (xs ys : List Char) :
    replaceZ (xs ++ ys) = replaceZ xs ++ replaceZ ys := by
  induction xs with
  | nil => simp [replaceZ]
  | cons c cs ih =>
    by_cases hc : c = 'Z' <;> simp [replaceZ, hc, ih]

theorem replaceZ_of_ne (xs : List Char) (h : ∀ c ∈ xs, ¬ c = 'Z') :
    replaceZ xs = xs := by
  induction xs with
  | nil => rfl
  | cons c cs ih =>
    rw [replaceZ, if_neg (h c (List.mem_cons_self c cs))]
    rw [ih fun x hx => h x (List.mem_cons_of_mem c hx)]

theorem pad2_ne_Z (n : Nat) (hn : n < 100) : ∀ c ∈ pad2 n, ¬ c = 'Z' := by
  intro c hc
  simp only [pad2, List.mem_cons, List.not_mem_nil, or_false] at hc
  rcases hc with rfl | rfl
  · exact digitChar_ne_Z _ (by omega)
  · exact digitChar_ne_Z _ (by omega)

theorem pad3_ne_Z (n : Nat) (hn : n < 1000) : ∀ c ∈ pad3 n, ¬ c = 'Z' := by
  intro c hc
  simp only [pad3, List.mem_cons, List.not_mem_nil, or_false] at hc
  rcases hc with rfl | rfl | rfl
  · exact digitChar_ne_Z _ (by omega)
  · exact digitChar_ne_Z _ (by omega)
  · exact digitChar_ne_Z _ (by omega)

theorem pad4_ne_Z (n : Nat) (hn : n < 10000) : ∀ c ∈ pad4 n, ¬ c = 'Z' := by
  intro c hc
  simp only [pad4, List.mem_cons, List.not_mem_nil, or_false] at hc
  rcases hc with rfl | rfl | rfl | rfl
  · exact digitChar_ne_Z _ (by omega)
  · exact digitChar_ne_Z _ (by omega)
  · exact digitChar_ne_Z _ (by omega)
  · exact digitChar_ne_Z _ (by omega)

theorem renderBody_ne_Z (y mo d h mi s : Nat) (hy : y < 10000) (hmo : mo < 100)
    (hd : d < 100) (hh : h < 100) (hmi : mi < 100) (hs : s < 100) :
    ∀ c ∈ renderBody y mo d h mi s, ¬ c = 'Z' := by
  intro c hc
  simp only [renderBody, List.mem_append, List.mem_cons] at hc
  rcases hc with hc | hc | hc | hc | hc | hc | hc | hc | hc | hc | hc
  · exact pad4_ne_Z y hy c hc
  · subst hc; decide
  · exact pad2_ne_Z mo hmo c hc
  · subst hc; decide
  · exact pad2_ne_Z d hd c hc
  · subst hc; decide
  · exact pad2_ne_Z h hh c hc
  · subst hc; decide
  · exact pad2_ne_Z mi hmi c hc
  · subst hc; decide
  · exact pad2_ne_Z s hs c hc

theorem renderFrac_ne_Z (o : Option Nat) (ho : fracOk o) :
    ∀ c ∈ renderFrac o, ¬ c = 'Z' := by
  intro c hc
  cases o with
  | none => simp [renderFrac] at hc
  | some f =>
    simp only [renderFrac, List.mem_cons] at hc
    rcases hc with rfl | hc
    · decide
    · exact pad3_ne_Z f ho c hc

theorem renderSuffix_numOff_ne_Z (neg : Bool) (hh mm : Nat) (h1 : hh ≤ 23) (h2 : mm ≤ 59) :
    ∀ c ∈ renderSuffix (.numOff neg hh mm), ¬ c = 'Z' := by
  intro c hc
  simp only [renderSuffix, List.mem_cons, List.mem_append] at hc
  rcases hc with rfl | hc | rfl | hc
  · cases neg <;> decide
  · exact pad2_ne_Z hh (by omega) c hc
  · decide
  · exact pad2_ne_Z mm (by omega) c hc

theorem scanFrac3_nodot (c : Char) (cs : List Char) (h : ¬ c = '.') :
    scanFrac3 (c :: cs) = some (0, c :: cs) := by
  simp [scanFrac3, h]

theorem scanFrac3_dot (f : Nat) (hf : f < 1000) (rest : List Char) :
    scanFrac3 ('.' :: (pad3 f ++ rest)) = some (f * 1000000, rest) := by
  simp [scanFrac3, scanNum_pad3 f hf]

theorem scanFrac3_render (o : Option Nat) (ho : fracOk o) (c : Char) (rest : List Char)
    (hc : ¬ c = '.') :
    scanFrac3 (renderFrac o ++ c :: rest) = some (fracNanos o, c :: rest) := by
  cases o with
  | none => simpa [renderFrac, fracNanos] using scanFrac3_nodot c rest hc
  | some f =>
    simp only [renderFrac, List.cons_append, List.append_assoc, fracNanos]
    exact scanFrac3_dot f ho (c :: rest)

theorem scanOffMag_render (hh mm : Nat) (h1 : hh < 100) (h2 : mm ≤ 59) :
    scanOffMag (pad2 hh ++ ':' :: pad2 mm) = some (hh * 3600 + mm * 60, []) := by
  rw [scanOffMag, scanNum22_pad2 hh h1, Option.some_bind]
  have : scanNum 2 2 (dropColon (':' :: pad2 mm)) = some (mm, []) := by
    have := scanNum22_pad2 mm (by omega) []
    simpa [dropColon] using this
  rw [this, Option.some_bind, if_pos h2]

theorem scanOffset_render (neg : Bool) (hh mm : Nat) (h1 : hh < 100) (h2 : mm ≤ 59) :
    scanOffset (renderSuffix (.numOff neg hh mm)) =
      some (suffixOffsetSec (.numOff neg hh mm), []) := by
  cases neg with
  | false =>
    have hr : renderSuffix (.numOff false hh mm) = '+' :: (pad2 hh ++ ':' :: pad2 mm) := rfl
    have hv : suffixOffsetSec (.numOff false hh mm) = (hh : Int) * 3600 + (mm : Int) * 60 := by
      simp [suffixOffsetSec]
    rw [hr, hv, scanOffset, if_pos rfl, scanOffMag_render hh mm h1 h2]
    simp only [Option.map_some', Option.some.injEq, Prod.mk.injEq, and_true]
    push_cast
    ring
  | true =>
    have hr : renderSuffix (.numOff true hh mm) = '-' :: (pad2 hh ++ ':' :: pad2 mm) := rfl
    have hv : suffixOffsetSec (.numOff true hh mm) = -((hh : Int) * 3600 + (mm : Int) * 60) := by
      simp [suffixOffsetSec]
    rw [hr, hv, scanOffset, if_neg (by decide), if_pos rfl, scanOffMag_render hh mm h1 h2]
    simp only [Option.map_some', Option.some.injEq, Prod.mk.injEq, and_true]
    push_cast
    ring

theorem scanOffset_zuluRepl :
    scanOffset ['+', '0', '0', ':', '0', '0'] = some (0, []) := by decide

theorem toDateTimeWithOffset_valid (f : BodyFields) (nano : Nat) (off : Int)
    (h1 : 1 ≤ f.month) (h2 : f.month ≤ 12) (h3 : 1 ≤ f.day)
    (h4 : f.day ≤ daysInMonth f.year f.month) (h5 : f.hour ≤ 23) (h6 : f.minute ≤ 59)
    (h7 : f.second ≤ 59) (h8 : f.year.natAbs ≤ 262143) (h9 : off.natAbs ≤ 86399) :
    toDateTimeWithOffset f nano off =
      some { sec := daysFromCivil f.year f.month f.day * 86400 +
                    ((f.hour : Int) * 3600 + (f.minute : Int) * 60 + (f.second : Int)) - off,
             nano := nano } := by
  rw [toDateTimeWithOffset,
      if_pos ⟨h1, h2, h3, h4, h5, h6, by omega, h8, h9⟩]
  have hmin : min f.second 59 = f.second := Nat.min_eq_left h7
  have h60 : ¬ f.second = 60 := by omega
  rw [hmin, if_neg h60]
  simp

theorem scanFrac3_render_suffix (o : Option Nat) (ho : fracOk o) (neg : Bool) (hh mm : Nat) :
    scanFrac3 (renderFrac o ++ renderSuffix (.numOff neg hh mm)) =
      some (fracNanos o, renderSuffix (.numOff neg hh mm)) := by
  cases neg with
  | false =>
    have hr : renderSuffix (.numOff false hh mm) = '+' :: (pad2 hh ++ ':' :: pad2 mm) := rfl
    rw [hr]
    exact scanFrac3_render o ho '+' _ (by decide)
  | true =>
    have hr : renderSuffix (.numOff true hh mm) = '-' :: (pad2 hh ++ ':' :: pad2 mm) := rfl
    rw [hr]
    exact scanFrac3_render o ho '-' _ (by decide)

theorem suffixOffsetSec_natAbs_le (neg : Bool) (hh mm : Nat) (h1 : hh ≤ 23) (h2 : mm ≤ 59) :
    (suffixOffsetSec (.numOff neg hh mm)).natAbs ≤ 86399 := by
  cases neg <;> simp [suffixOffsetSec] <;> omega

theorem daysInMonth_le (y : Int) (m : Nat) : daysInMonth y m ≤ 31 := by
  unfold daysInMonth
  split <;> try omega
  split <;> omega

theorem chronoParseFmt3_render (c : TsComp) (hv : c.Valid) :
    chronoParseFmt3 (replaceZ (render c)) = some (refInstant c) := by
  obtain ⟨y, mo, d, h, mi, s, fr, sfx⟩ := c
  dsimp only [TsComp.Valid] at hv
  obtain ⟨hy, hmo1, hmo2, hd1, hd2, hh2, hmi2, hs2, hf, hsf⟩ := hv
  cases sfx with
  | zulu =>
    have hrz : replaceZ (render ⟨y, mo, d, h, mi, s, fr, .zulu⟩) =
        renderBody y mo d h mi s ++ (renderFrac fr ++ ['+', '0', '0', ':', '0', '0']) := by
      rw [render, replaceZ_append, replaceZ_append]
      rw [replaceZ_of_ne _ (renderBody_ne_Z y mo d h mi s hy (by omega)
            (by have := daysInMonth_le (y : Int) mo; omega) (by omega) (by omega) (by omega))]
      rw [replaceZ_of_ne _ (renderFrac_ne_Z fr hf)]
      rw [show replaceZ (renderSuffix TsSuffix.zulu) = ['+', '0', '0', ':', '0', '0'] from rfl]
      rw [List.append_assoc]
    rw [chronoParseFmt3, hrz,
        chronoParseBody_render y mo d h mi s hy (by omega)
          (by have := daysInMonth_le (y : Int) mo; omega) (by omega) (by omega) (by omega),
        Option.some_bind]
    rw [show renderFrac fr ++ ['+', '0', '0', ':', '0', '0'] =
          renderFrac fr ++ '+' :: ['0', '0', ':', '0', '0'] from rfl]
    rw [scanFrac3_render fr hf '+' _ (by decide), Option.some_bind]
    rw [show ('+' :: ['0', '0', ':', '0', '0'] : List Char) =
          ['+', '0', '0', ':', '0', '0'] from rfl]
    rw [scanOffset_zuluRepl, Option.some_bind, if_pos rfl]
    rw [toDateTimeWithOffset_valid _ _ _ hmo1 hmo2 hd1 hd2 hh2 hmi2 hs2
          (by simpa using (by omega : y ≤ 262143)) (by decide)]
    simp [refInstant, suffixOffsetSec]
  | numOff neg hh mm =>
    obtain ⟨hsh, hsm⟩ := hsf
    have hnz : replaceZ (render ⟨y, mo, d, h, mi, s, fr, .numOff neg hh mm⟩) =
        renderBody y mo d h mi s ++ (renderFrac fr ++ renderSuffix (.numOff neg hh mm)) := by
      rw [render, replaceZ_append, replaceZ_append]
      rw [replaceZ_of_ne _ (renderBody_ne_Z y mo d h mi s hy (by omega)
            (by have := daysInMonth_le (y : Int) mo; omega) (by omega) (by omega) (by omega))]
      rw [replaceZ_of_ne _ (renderFrac_ne_Z fr hf)]
      rw [replaceZ_of_ne _ (renderSuffix_numOff_ne_Z neg hh mm hsh hsm)]
      rw [List.append_assoc]
    rw [chronoParseFmt3, hnz,
        chronoParseBody_render y mo d h mi s hy (by omega)
          (by have := daysInMonth_le (y : Int) mo; omega) (by omega) (by omega) (by omega),
        Option.some_bind]
    rw [scanFrac3_render_suffix fr hf neg hh mm, Option.some_bind]
    rw [scanOffset_render neg hh mm (by omega) hsm, Option.some_bind, if_pos rfl]
    rw [toDateTimeWithOffset_valid _ _ _ hmo1 hmo2 hd1 hd2 hh2 hmi2 hs2
          (by simpa using (by omega : y ≤ 262143))
          (suffixOffsetSec_natAbs_le neg hh mm hsh hsm)]
    simp [refInstant]

/-- C4: for every timestamp whose components are valid and which conforms to
one of the four supported format patterns (with or without a millisecond
fraction, with a trailing literal `Z` or an explicit numeric offset), the
parsing chain of `parse_github_timestamp_to_local` succeeds and returns the
reference UTC instant denoted by the string. -/
theorem C4_parse_conforming_timestamp (c : TsComp) (hv : c.Valid) :
    parse_github_timestamp_to_local (render c) = some (refInstant c) := by
  rw [parse_github_timestamp_to_local]
  rw [chronoParseFmt1_none, chronoParseFmt2_none, chronoParseFmt3_render c hv]

/-- Concrete conforming timestamp components used as the C4 witness input,
denoting 2024-01-15T10:30:00.123+05:30. -/
def c4ex : TsComp := ⟨2024, 1, 15, 10, 30, 0, some 123, .numOff false 5 30⟩

/-- Witness for C4 at concrete components: the validity hypothesis holds and
the parser returns the denoted instant. -/
theorem C4_parse_conforming_timestamp_witness :
    TsComp.Valid c4ex ∧
      parse_github_timestamp_to_local (render c4ex) = some (refInstant c4ex) :=
  ⟨by decide, C4_parse_conforming_timestamp c4ex (by decide)⟩

/-- C5 counterexample: on the conforming string 2024-01-15T10:30:00Z, parsing
with the Z-aware pattern (the second pattern of the chain, which matches this
fractionless string textually) yields no instant at all, while the
offset-aware pattern applied to the Z-substituted string yields the denoted
instant; so the two do not agree as the claim states. -/
theorem C5_counterexample :
    chronoParseFmt2 ("2024-01-15T10:30:00Z".toList) = none ∧
    chronoParseFmt1 ("2024-01-15T10:30:00Z".toList) = none ∧
    chronoParseFmt4 (replaceZ ("2024-01-15T10:30:00Z".toList)) =
      some { sec := 1705314600, nano := 0 } := by
  refine ⟨chronoParseFmt2_none _, chronoParseFmt1_none _, ?_⟩
  decide

/-- C5 amended: for every valid timestamp ending in the literal `Z`, the two
Z-aware patterns of the fallback chain never yield an instant (chrono
DateTime parsing requires an offset item, which a literal `Z` does not set);
substituting `+00:00` for `Z` and parsing with the offset-aware pattern
yields exactly the UTC instant the original string denotes, and this is the
value the overall parser returns. -/
theorem C5_z_substitution_amended (c : TsComp) (_hz : c.suffix = TsSuffix.zulu)
    (hv : c.Valid) :
    chronoParseFmt1 (render c) = none ∧ chronoParseFmt2 (render c) = none ∧
    chronoParseFmt3 (replaceZ (render c)) = some (refInstant c) ∧
    parse_github_timestamp_to_local (render c) = some (refInstant c) := by
  refine ⟨chronoParseFmt1_none _, chronoParseFmt2_none _, chronoParseFmt3_render c hv, ?_⟩
  rw [parse_github_timestamp_to_local]
  rw [chronoParseFmt1_none, chronoParseFmt2_none, chronoParseFmt3_render c hv]

/-- Concrete Z-suffixed components used as the C5 witness input, denoting
2024-03-01T23:59:59Z. -/
def c5ex : TsComp := ⟨2024, 3, 1, 23, 59, 59, none, .zulu⟩

/-- Witness for the amended C5 at concrete components. -/
theorem C5_z_substitution_amended_witness :
    c5ex.suffix = TsSuffix.zulu ∧ TsComp.Valid c5ex ∧
      (chronoParseFmt1 (render c5ex) = none ∧ chronoParseFmt2 (render c5ex) = none ∧
       chronoParseFmt3 (replaceZ (render c5ex)) = some (refInstant c5ex) ∧
       parse_github_timestamp_to_local (render c5ex) = some (refInstant c5ex)) :=
  ⟨rfl, by decide, C5_z_substitution_amended c5ex rfl (by decide)⟩

/-- A JSON value, the image of serde_json's `Value` needed by the program
(numbers restricted to integers, the only kind the decoded shapes use). -/
inductive JsonVal
  | null
  | jbool (b : Bool)
  | jnum (n : Int)
  | jstr (s : String)
  | jarr (xs : List JsonVal)
  | jobj (fields : List (String × JsonVal))

/-- Object field lookup (first binding wins, as serde_json maps behave for
well-formed objects). -/
def JsonVal.field (j : JsonVal) (k : String) : Option JsonVal :=
  match j with
  | .jobj fs => fs.lookup k
  | _ => none

/-- Extract a JSON string. -/
def JsonVal.getStr : JsonVal → Option String
  | .jstr s => some s
  | _ => none

/-- Extract a JSON integer. -/
def JsonVal.getInt : JsonVal → Option Int
  | .jnum n => some n
  | _ => none

/-- Extract a JSON array. -/
def JsonVal.getArr : JsonVal → Option (List JsonVal)
  | .jarr xs => some xs
  | _ => none

/-- The `Workflow` struct of src/main.rs. -/
structure Workflow where
  id : Nat
  name : String
  state : String
  created_at : String
  updated_at : String
deriving DecidableEq, Repr

/-- The `WorkflowResponse` struct of src/main.rs. -/
structure WorkflowResponse where
  total_count : Int
  workflows : List Workflow
deriving DecidableEq, Repr

/-- The `WorkflowRun` struct of src/main.rs. -/
structure WorkflowRun where
  created_at : String
  status : String
  conclusion : Option String
deriving DecidableEq, Repr

/-- The `WorkflowRunsResponse` struct of src/main.rs. -/
structure WorkflowRunsResponse where
  total_count : Int
  workflow_runs : List WorkflowRun
deriving DecidableEq, Repr

/-- serde decoding of a `Workflow`: every field required with the right type,
a negative number rejected for the unsigned id, unknown fields ignored. -/
def decodeWorkflow (j : JsonVal) : Option Workflow :=
  (j.field "id").bind fun idj => idj.getInt.bind fun idn =>
  if idn < 0 then none else
  (j.field "name").bind fun nj => nj.getStr.bind fun nm =>
  (j.field "state").bind fun sj => sj.getStr.bind fun st =>
  (j.field "created_at").bind fun cj => cj.getStr.bind fun ca =>
  (j.field "updated_at").bind fun uj => uj.getStr.bind fun ua =>
  some ⟨idn.toNat, nm, st, ca, ua⟩

/-- serde decoding of a `WorkflowResponse`. -/
def decodeWorkflowResponse (j : JsonVal) : Option WorkflowResponse :=
  (j.field "total_count").bind fun tj => tj.getInt.bind fun tc =>
  (j.field "workflows").bind fun wj => wj.getArr.bind fun xs =>
  (xs.mapM decodeWorkflow).map fun ws => ⟨tc, ws⟩

/-- serde decoding of a `WorkflowRun`: the optional `conclusion` accepts a
missing field or an explicit null as `none`. -/
def decodeWorkflowRun (j : JsonVal) : Option WorkflowRun :=
  (j.field "created_at").bind fun cj => cj.getStr.bind fun ca =>
  (j.field "status").bind fun sj => sj.getStr.bind fun st =>
  match j.field "conclusion" with
  | none => some ⟨ca, st, none⟩
  | some .null => some ⟨ca, st, none⟩
  | some (.jstr c) => some ⟨ca, st, some c⟩
  | some _ => none

/-- serde decoding of a `WorkflowRunsResponse`. -/
def decodeWorkflowRunsResponse (j : JsonVal) : Option WorkflowRunsResponse :=
  (j.field "total_count").bind fun tj => tj.getInt.bind fun tc =>
  (j.field "workflow_runs").bind fun wj => wj.getArr.bind fun xs =>
  (xs.mapM decodeWorkflowRun).map fun rs => ⟨tc, rs⟩

/-- Outcome of one HTTP GET as the program observes it: either a transport
failure from `send()`, or a response with a status code and the result of
reading the body as JSON (`none` models a body that fails to parse). -/
inductive FetchResult
  | transportErr
  | response (status : Nat) (body : Option JsonVal)

/-- The HTTP environment of one program run: the top-level workflow-list
response and, for each workflow id, the per-workflow runs response.  Owner
and repository only select the URLs and are fixed for the run, so the runs
endpoint is keyed by the workflow id alone, exactly as the URL in
`get_last_run_date` is built. -/
structure Env where
  listFetch : FetchResult
  runsFetch : Nat → FetchResult

/-- reqwest's `StatusCode::is_success`: a 2xx status. -/
def isSuccess (st : Nat) : Bool := 200 ≤ st && st < 300

/-- Result of `get_last_run_date`, with the warning it may print. -/
structure RunFetch where
  warned : Bool
  result : Except Unit (Option String)

/-- The `get_last_run_date` function of src/main.rs: transport errors and
body/JSON/schema failures propagate as `Except.error`; a non-success status
prints a warning and yields `Ok(None)`; a success decodes the run list and
yields the first run's `created_at`, or `None` when the list is empty. -/
def get_last_run_date (env : Env) (workflow_id : Nat) : RunFetch :=
  match env.runsFetch workflow_id with
  | .transportErr => ⟨false, .error ()⟩
  | .response st body =>
    if isSuccess st then
      match body with
      | none => ⟨false, .error ()⟩
      | some j =>
        match decodeWorkflowRunsResponse j with
        | none => ⟨false, .error ()⟩
        | some r =>
          match r.workflow_runs with
          | [] => ⟨false, .ok none⟩
          | run :: _ => ⟨false, .ok (some run.created_at)⟩
    else ⟨true, .ok none⟩

/-- Tri-state marker printed next to the workflow state (the emoji match in
`display_workflows`). -/
inductive StateMarker
  | active
  | disabled
  | unrecognized
deriving DecidableEq, Repr

/-- Display form of a timestamp: localized when parsing succeeded, or the raw
text (printed with a non-fatal warning on standard error) when it failed. -/
inductive DateDisplay
  | parsed (t : Instant)
  | raw (s : String)
deriving DecidableEq, Repr

/-- Display form of the last-run line: a timestamp display, the distinct
"Never run" display, or the distinct "Error fetching run data" display. -/
inductive RunDisplay
  | time (d : DateDisplay)
  | neverRun
  | fetchError
deriving DecidableEq, Repr

/-- One printed line of a workflow block, with the data it carries, in the
order `display_workflows` prints them. -/
inductive OutField
  | indexMarker (i : Nat)
  | name (s : String)
  | state (m : StateMarker) (s : String)
  | created (d : DateDisplay)
  | isActive (b : Bool)
  | updated (d : DateDisplay)
  | lastRun (r : RunDisplay)
  | separator
deriving DecidableEq, Repr

/-- The emoji chosen by the `match workflow.state.as_str()` in the source. -/
def stateEmoji (s : String) : StateMarker :=
  if s = "active" then .active
  else if s = "disabled" then .disabled
  else .unrecognized

/-- Parse-or-raw display of one timestamp string, as the renderer does. -/
def dateDisplay (s : String) : DateDisplay :=
  match parse_github_timestamp_to_local s.toList with
  | some t => .parsed t
  | none => .raw s

/-- The last-run display derived from the run fetcher's result. -/
def runDisplay : Except Unit (Option String) → RunDisplay
  | .error _ => .fetchError
  | .ok none => .neverRun
  | .ok (some s) => .time (dateDisplay s)

/-- One workflow block, as the body of the `for` loop of `display_workflows`
prints it: index, name, state, created, is-active, updated, last run,
separator. -/
def renderBlock (env : Env) (index : Nat) (w : Workflow) : List OutField :=
  [ .indexMarker (index + 1),
    .name w.name,
    .state (stateEmoji w.state) w.state,
    .created (dateDisplay w.created_at),
    .isActive (w.state == "active"),
    .updated (dateDisplay w.updated_at),
    .lastRun (runDisplay (get_last_run_date env w.id).result),
    .separator ]

/-- The `display_workflows` function: decode the JSON into a
`WorkflowResponse` (a schema mismatch is the only error), print the header
with `total_count`, then one block per workflow in order. -/
def display_workflows (env : Env) (j : JsonVal) :
    Except Unit (Int × List (List OutField)) :=
  match decodeWorkflowResponse j with
  | none => .error ()
  | some r => .ok (r.total_count, r.workflows.enum.map fun p => renderBlock env p.1 p.2)

/-- Observable outcome of a successful program termination: either the full
report, or the "Request failed with status" message printed when the
top-level list request has a non-success status (after which `main` still
returns `Ok(())`). -/
inductive MainOutcome
  | report (totalCount : Int) (blocks : List (List OutField))
  | listFetchFailed (status : Nat)
deriving Repr

/-- The `main` function over the HTTP environment: transport errors, body
JSON failures and the schema mismatch of the top-level list are `Except.error`
(a non-zero process exit); a non-success list status prints the failure
message and returns `Ok`; otherwise the report is printed and `Ok` returned. -/
def mainRun (env : Env) : Except Unit MainOutcome :=
  match env.listFetch with
  | .transportErr => .error ()
  | .response st body =>
    if isSuccess st then
      match body with
      | none => .error ()
      | some j =>
        match display_workflows env j with
        | .error e => .error e
        | .ok (tc, blocks) => .ok (.report tc blocks)
    else .ok (.listFetchFailed st)

/-- A concrete workflow used by witnesses and counterexamples. -/
def wf1 : Workflow := ⟨10, "CI", "active", "2024-01-15T10:30:00Z", "2024-01-15T10:30:00Z"⟩

/-- JSON encoding of `wf1` as the workflows endpoint returns it. -/
def wfJson1 : JsonVal :=
  .jobj [("id", .jnum 10), ("name", .jstr "CI"), ("state", .jstr "active"),
         ("created_at", .jstr "2024-01-15T10:30:00Z"),
         ("updated_at", .jstr "2024-01-15T10:30:00Z")]

/-- A workflow-list JSON body with one workflow and a matching total count. -/
def listJson1 : JsonVal :=
  .jobj [("total_count", .jnum 1), ("workflows", .jarr [wfJson1])]

/-- A workflow-list JSON body whose total count (5) disagrees with the length
of its workflows array (1). -/
def listJson5 : JsonVal :=
  .jobj [("total_count", .jnum 5), ("workflows", .jarr [wfJson1])]

/-- A concrete workflow run as the runs endpoint returns it. -/
def run1 : WorkflowRun := ⟨"2024-01-15T10:30:00Z", "completed", some "success"⟩

/-- JSON encoding of `run1`. -/
def runJson1 : JsonVal :=
  .jobj [("created_at", .jstr "2024-01-15T10:30:00Z"), ("status", .jstr "completed"),
         ("conclusion", .jstr "success")]

/-- A runs-list JSON body with one run. -/
def runsJson1 : JsonVal :=
  .jobj [("total_count", .jnum 1), ("workflow_runs", .jarr [runJson1])]

/-- A runs-list JSON body with zero runs. -/
def runsJson0 : JsonVal :=
  .jobj [("total_count", .jnum 0), ("workflow_runs", .jarr [])]

/-- Environment whose top-level list request gets HTTP 404. -/
def env404 : Env := ⟨.response 404 (some .null), fun _ => .transportErr⟩

/-- Environment where everything succeeds with the concrete fixtures. -/
def envOk : Env :=
  ⟨.response 200 (some listJson1), fun _ => .response 200 (some runsJson1)⟩

/-- Environment whose per-workflow runs response is valid JSON that does not
match the `WorkflowRunsResponse` schema. -/
def envC2 : Env :=
  ⟨.response 200 (some listJson1), fun _ => .response 200 (some (JsonVal.jobj []))⟩

/-- `envOk` with a differing top-level fetch but identical runs endpoint. -/
def envAlt : Env := ⟨.transportErr, envOk.runsFetch⟩

/-- Environment whose runs endpoint returns a non-success status. -/
def envWarn : Env :=
  ⟨.response 200 (some listJson1), fun _ => .response 500 (some .null)⟩

/-- Environment whose runs endpoint succeeds with an empty run list. -/
def envEmptyRuns : Env :=
  ⟨.response 200 (some listJson1), fun _ => .response 200 (some runsJson0)⟩

/-- C1 counterexample: with a 404 on the top-level workflow list, `main`
prints the failure message and returns `Ok(())` — the process terminates
successfully (exit status zero), not with the non-zero/error status the
claim requires.  No workflow blocks are printed. -/
theorem C1_counterexample :
    mainRun env404 = Except.ok (MainOutcome.listFetchFailed 404) ∧
    mainRun env404 ≠ Except.error () := by
  refine ⟨rfl, ?_⟩
  intro h
  rw [show mainRun env404 = Except.ok (MainOutcome.listFetchFailed 404) from rfl] at h
  exact Except.noConfusion h

/-- C1 amended: a non-success HTTP status on the top-level list request
prints the failure message with no workflow blocks but the program still
terminates successfully; only a transport failure (or, per C2, a JSON/schema
failure) of the top-level fetch terminates with an error status; a
successful, decodable list fetch terminates successfully whatever the
per-workflow run fetches did. -/
theorem C1_exit_behavior_amended (env : Env) :
    (∀ st b, env.listFetch = .response st b → isSuccess st = false →
        mainRun env = .ok (.listFetchFailed st)) ∧
    (∀ st j tc blocks, env.listFetch = .response st (some j) → isSuccess st = true →
        display_workflows env j = .ok (tc, blocks) →
        mainRun env = .ok (.report tc blocks)) ∧
    (env.listFetch = .transportErr → mainRun env = .error ()) := by
  refine ⟨?_, ?_, ?_⟩
  · intro st b hl hs
    simp [mainRun, hl, hs]
  · intro st j tc blocks hl hs hd
    simp [mainRun, hl, hs, hd]
  · intro hl
    simp [mainRun, hl]

/-- Witness for the amended C1 at two concrete environments: the 404
environment exercises the non-success branch and `envOk` the success branch. -/
theorem C1_exit_behavior_amended_witness :
    mainRun env404 = Except.ok (MainOutcome.listFetchFailed 404) ∧
    mainRun envOk = Except.ok (MainOutcome.report 1 [renderBlock envOk 0 wf1]) :=
  ⟨(C1_exit_behavior_amended env404).1 404 (some .null) rfl (by decide),
   (C1_exit_behavior_amended envOk).2.1 200 listJson1 1 [renderBlock envOk 0 wf1]
     rfl (by decide) rfl⟩

/-- C2 counterexample: the per-workflow runs endpoint returns HTTP 200 with
the valid JSON `{}` which cannot be mapped into `WorkflowRunsResponse`; the
resulting error is caught by the renderer, displayed as the error line of
that workflow's block, and the program completes the report and terminates
successfully instead of aborting as the claim requires. -/
theorem C2_counterexample :
    (get_last_run_date envC2 10).result = Except.error () ∧
    OutField.lastRun RunDisplay.fetchError ∈ renderBlock envC2 0 wf1 ∧
    mainRun envC2 = Except.ok (MainOutcome.report 1 [renderBlock envC2 0 wf1]) ∧
    mainRun envC2 ≠ Except.error () := by
  refine ⟨rfl, by decide, rfl, ?_⟩
  intro h
  rw [show mainRun envC2 = Except.ok (MainOutcome.report 1 [renderBlock envC2 0 wf1])
        from rfl] at h
  exact Except.noConfusion h

/-- C2 amended: a JSON schema mismatch is fatal only while decoding the
top-level workflow list; a schema mismatch in a per-workflow run-list
response is propagated as that fetch's error value, rendered as the distinct
error display inside that workflow's otherwise complete block, and the
program continues the report. -/
theorem C2_schema_mismatch_amended (env : Env) :
    (∀ st j, env.listFetch = .response st (some j) → isSuccess st = true →
        decodeWorkflowResponse j = none → mainRun env = Except.error ()) ∧
    (∀ wid st j, env.runsFetch wid = .response st (some j) → isSuccess st = true →
        decodeWorkflowRunsResponse j = none →
        (get_last_run_date env wid).result = Except.error ()) ∧
    (∀ i w, (get_last_run_date env w.id).result = Except.error () →
        renderBlock env i w =
          [ .indexMarker (i + 1), .name w.name, .state (stateEmoji w.state) w.state,
            .created (dateDisplay w.created_at), .isActive (w.state == "active"),
            .updated (dateDisplay w.updated_at), .lastRun RunDisplay.fetchError,
            .separator ]) := by
  refine ⟨?_, ?_, ?_⟩
  · intro st j hl hs hd
    simp [mainRun, hl, hs, display_workflows, hd]
  · intro wid st j hr hs hd
    simp [get_last_run_date, hr, hs, hd]
  · intro i w herr
    simp [renderBlock, runDisplay, herr]

/-- Environment whose top-level list body is valid JSON (`null`) that cannot
be mapped into `WorkflowResponse`. -/
def envBadList : Env := ⟨.response 200 (some .null), fun _ => .transportErr⟩

/-- Witness for the amended C2: `envBadList` exercises the fatal top-level
mismatch, `envC2` the per-workflow mismatch and its error display. -/
theorem C2_schema_mismatch_amended_witness :
    mainRun envBadList = Except.error () ∧
    (get_last_run_date envC2 10).result = Except.error () ∧
    renderBlock envC2 0 wf1 =
      [ .indexMarker 1, .name wf1.name, .state (stateEmoji wf1.state) wf1.state,
        .created (dateDisplay wf1.created_at), .isActive (wf1.state == "active"),
        .updated (dateDisplay wf1.updated_at), .lastRun RunDisplay.fetchError,
        .separator ] :=
  ⟨(C2_schema_mismatch_amended envBadList).1 200 .null rfl (by decide) rfl,
   (C2_schema_mismatch_amended envC2).2.1 10 200 (JsonVal.jobj []) rfl (by decide) rfl,
   (C2_schema_mismatch_amended envC2).2.2 0 wf1 rfl⟩

/-- The kind of a printed block line, forgetting its data. -/
inductive FTag
  | idx
  | nm
  | st
  | cr
  | act
  | upd
  | lrun
  | sep
deriving DecidableEq, Repr

/-- Kind of one output field. -/
def fieldTag : OutField → FTag
  | .indexMarker _ => .idx
  | .name _ => .nm
  | .state _ _ => .st
  | .created _ => .cr
  | .isActive _ => .act
  | .updated _ => .upd
  | .lastRun _ => .lrun
  | .separator => .sep

/-- C3 counterexample: the block printed for a concrete workflow does not
follow the claimed order index, name, state, is-active, created, updated,
last-run — the code prints the creation time before the is-active line. -/
theorem C3_counterexample :
    (renderBlock env404 0 wf1).map fieldTag ≠
      [FTag.idx, FTag.nm, FTag.st, FTag.act, FTag.cr, FTag.upd, FTag.lrun, FTag.sep] := by
  decide

/-- C3 amended: every block the renderer emits consists of exactly these
lines in this fixed order: the index marker, the name, the state with its
tri-state marker, the creation time, the derived is-active boolean, the
last-modified time, the last-run display, and the separator. -/
theorem C3_field_order_amended (env : Env) (j : JsonVal) (tc : Int)
    (blocks : List (List OutField)) (hd : display_workflows env j = .ok (tc, blocks)) :
    ∀ b ∈ blocks, b.map fieldTag =
      [FTag.idx, FTag.nm, FTag.st, FTag.cr, FTag.act, FTag.upd, FTag.lrun, FTag.sep] := by
  intro b hb
  rw [display_workflows] at hd
  cases hdec : decodeWorkflowResponse j with
  | none => rw [hdec] at hd; exact Except.noConfusion hd
  | some r =>
    rw [hdec] at hd
    simp only [Except.ok.injEq, Prod.mk.injEq] at hd
    rw [← hd.2] at hb
    obtain ⟨p, _, rfl⟩ := List.mem_map.mp hb
    rfl

/-- Witness for the amended C3 at the concrete success environment. -/
theorem C3_field_order_amended_witness :
    display_workflows envOk listJson1 = .ok (1, [renderBlock envOk 0 wf1]) ∧
    (renderBlock envOk 0 wf1).map fieldTag =
      [FTag.idx, FTag.nm, FTag.st, FTag.cr, FTag.act, FTag.upd, FTag.lrun, FTag.sep] :=
  ⟨rfl, C3_field_order_amended envOk listJson1 1 [renderBlock envOk 0 wf1] rfl
          (renderBlock envOk 0 wf1) (List.mem_singleton.mpr rfl)⟩

/-- C6: the run fetcher returns `Ok(None)` without a warning when the decoded
run list is empty, `Ok(Some first.created_at)` when it is not, a warning plus
`Ok(None)` on a non-success status, and propagates transport failures, body
read failures and schema mismatches as the distinct error value. -/
theorem C6_run_fetcher (env : Env) (wid : Nat) :
    (env.runsFetch wid = .transportErr →
        get_last_run_date env wid = ⟨false, .error ()⟩) ∧
    (∀ st b, env.runsFetch wid = .response st b → isSuccess st = false →
        get_last_run_date env wid = ⟨true, .ok none⟩) ∧
    (∀ st, env.runsFetch wid = .response st none → isSuccess st = true →
        get_last_run_date env wid = ⟨false, .error ()⟩) ∧
    (∀ st j, env.runsFetch wid = .response st (some j) → isSuccess st = true →
        decodeWorkflowRunsResponse j = none →
        get_last_run_date env wid = ⟨false, .error ()⟩) ∧
    (∀ st j r, env.runsFetch wid = .response st (some j) → isSuccess st = true →
        decodeWorkflowRunsResponse j = some r → r.workflow_runs = [] →
        get_last_run_date env wid = ⟨false, .ok none⟩) ∧
    (∀ st j r run rest, env.runsFetch wid = .response st (some j) → isSuccess st = true →
        decodeWorkflowRunsResponse j = some r → r.workflow_runs = run :: rest →
        get_last_run_date env wid = ⟨false, .ok (some run.created_at)⟩) := by
  refine ⟨?_, ?_, ?_, ?_, ?_, ?_⟩
  · intro hr
    simp [get_last_run_date, hr]
  · intro st b hr hs
    simp [get_last_run_date, hr, hs]
  · intro st hr hs
    simp [get_last_run_date, hr, hs]
  · intro st j hr hs hd
    simp [get_last_run_date, hr, hs, hd]
  · intro st j r hr hs hd hruns
    simp [get_last_run_date, hr, hs, hd, hruns]
  · intro st j r run rest hr hs hd hruns
    simp [get_last_run_date, hr, hs, hd, hruns]

/-- Witness for C6 at concrete environments: one run present, empty run
list, non-success status, and a transport failure. -/
theorem C6_run_fetcher_witness :
    get_last_run_date envOk 10 = ⟨false, .ok (some "2024-01-15T10:30:00Z")⟩ ∧
    get_last_run_date envEmptyRuns 10 = ⟨false, .ok none⟩ ∧
    get_last_run_date envWarn 10 = ⟨true, .ok none⟩ ∧
    get_last_run_date env404 10 = ⟨false, .error ()⟩ :=
  ⟨(C6_run_fetcher envOk 10).2.2.2.2.2 200 runsJson1 ⟨1, [run1]⟩ run1 []
      rfl (by decide) rfl rfl,
   (C6_run_fetcher envEmptyRuns 10).2.2.2.2.1 200 runsJson0 ⟨0, []⟩
      rfl (by decide) rfl rfl,
   (C6_run_fetcher envWarn 10).2.1 500 (some .null) rfl (by decide),
   (C6_run_fetcher env404 10).1 rfl⟩

/-- C7: the timestamp parser is total as an embedded function; on a string on
which every pattern fails it returns the failure value `none` (the first two
patterns never produce an instant for any string, so only the two
substituted patterns need to fail), and the renderer then shows the raw
string inside a complete block, so rendering continues. -/
theorem C7_parse_total_fallback (s : List Char) (env : Env) (i : Nat) (w : Workflow) :
    (chronoParseFmt3 (replaceZ s) = none → chronoParseFmt4 (replaceZ s) = none →
        parse_github_timestamp_to_local s = none) ∧
    (parse_github_timestamp_to_local w.created_at.toList = none →
        OutField.created (DateDisplay.raw w.created_at) ∈ renderBlock env i w) ∧
    (renderBlock env i w).length = 8 := by
  refine ⟨?_, ?_, rfl⟩
  · intro h3 h4
    rw [parse_github_timestamp_to_local, chronoParseFmt1_none, chronoParseFmt2_none, h3, h4]
  · intro hp
    rw [show w.created_at.toList = w.created_at.data from rfl] at hp
    simp [renderBlock, dateDisplay, hp]

/-- A workflow whose timestamps match none of the supported patterns. -/
def wfBad : Workflow := ⟨12, "Nightly", "active", "not-a-date", "not-a-date"⟩

/-- Witness for C7: the non-conforming string is rejected by every pattern
and the renderer falls back to the raw display in a full block. -/
theorem C7_parse_total_fallback_witness :
    parse_github_timestamp_to_local ("not-a-date".toList) = none ∧
    OutField.created (DateDisplay.raw "not-a-date") ∈ renderBlock env404 0 wfBad ∧
    (renderBlock env404 0 wfBad).length = 8 :=
  ⟨(C7_parse_total_fallback ("not-a-date".toList) env404 0 wfBad).1 rfl rfl,
   (C7_parse_total_fallback ("not-a-date".toList) env404 0 wfBad).2.1 rfl,
   (C7_parse_total_fallback ("not-a-date".toList) env404 0 wfBad).2.2⟩

/-- C8: the derived is-active boolean printed in a block is true exactly when
the state string equals "active" (case-sensitive, no other state counted),
and any state other than "active" or "disabled" renders with the
unrecognized marker and an is-active of false. -/
theorem C8_is_active (env : Env) (i : Nat) (w : Workflow) :
    (OutField.isActive (w.state == "active") ∈ renderBlock env i w) ∧
    ((w.state == "active") = true ↔ w.state = "active") ∧
    (¬ w.state = "active" → ¬ w.state = "disabled" →
        OutField.state StateMarker.unrecognized w.state ∈ renderBlock env i w ∧
        OutField.isActive false ∈ renderBlock env i w) := by
  refine ⟨by simp [renderBlock], by simp, ?_⟩
  intro h1 h2
  have hb : (w.state == "active") = false := beq_eq_false_iff_ne.mpr h1
  constructor
  · simp [renderBlock, stateEmoji, h1, h2]
  · simp [renderBlock, hb]

/-- A workflow with the unrecognized state "archived". -/
def wfArch : Workflow :=
  ⟨11, "Old", "archived", "2024-01-15T10:30:00Z", "2024-01-15T10:30:00Z"⟩

/-- Witness for C8 with the "archived" state. -/
theorem C8_is_active_witness :
    (("archived" == "active") = true ↔ ("archived" : String) = "active") ∧
    OutField.state StateMarker.unrecognized "archived" ∈ renderBlock env404 0 wfArch ∧
    OutField.isActive false ∈ renderBlock env404 0 wfArch :=
  ⟨(C8_is_active env404 0 wfArch).2.1,
   ((C8_is_active env404 0 wfArch).2.2 (by decide) (by decide)).1,
   ((C8_is_active env404 0 wfArch).2.2 (by decide) (by decide)).2⟩

/-- C9: the renderer emits one block per workflow in the order received; a
block's content depends on the environment only through the runs fetch keyed
by that workflow's id; and every block is complete (eight lines) whatever
the outcome of its run fetch, so no outcome prevents later workflows from
rendering. -/
theorem C9_order_key_isolation (env env' : Env) (j : JsonVal) (tc : Int)
    (ws : List Workflow) (hd : decodeWorkflowResponse j = some ⟨tc, ws⟩) :
    display_workflows env j = .ok (tc, ws.enum.map fun p => renderBlock env p.1 p.2) ∧
    (∀ i w, env.runsFetch w.id = env'.runsFetch w.id →
        renderBlock env i w = renderBlock env' i w) ∧
    (∀ b ∈ ws.enum.map (fun p => renderBlock env p.1 p.2), b.length = 8) := by
  refine ⟨by simp [display_workflows, hd], ?_, ?_⟩
  · intro i w h
    have hg : get_last_run_date env w.id = get_last_run_date env' w.id := by
      rw [get_last_run_date, get_last_run_date, h]
    rw [renderBlock, renderBlock, hg]
  · intro b hb
    obtain ⟨p, _, rfl⟩ := List.mem_map.mp hb
    rfl

/-- Witness for C9: the success environment renders its one block; an
environment differing everywhere except the runs endpoint yields the same
block for the same workflow. -/
theorem C9_order_key_isolation_witness :
    display_workflows envOk listJson1 =
      .ok (1, [wf1].enum.map fun p => renderBlock envOk p.1 p.2) ∧
    renderBlock envOk 0 wf1 = renderBlock envAlt 0 wf1 ∧
    (∀ b ∈ [wf1].enum.map (fun p => renderBlock envOk p.1 p.2), b.length = 8) :=
  ⟨(C9_order_key_isolation envOk envAlt listJson1 1 [wf1] rfl).1,
   (C9_order_key_isolation envOk envAlt listJson1 1 [wf1] rfl).2.1 0 wf1 rfl,
   (C9_order_key_isolation envOk envAlt listJson1 1 [wf1] rfl).2.2⟩

/-- C10: the number of blocks always equals the length of the decoded
workflows array; `total_count` is only carried into the report header and
never drives the iteration. -/
theorem C10_block_count (env : Env) (j : JsonVal) (tc : Int) (ws : List Workflow)
    (hd : decodeWorkflowResponse j = some ⟨tc, ws⟩) :
    ∃ blocks, display_workflows env j = .ok (tc, blocks) ∧ blocks.length = ws.length := by
  refine ⟨ws.enum.map fun p => renderBlock env p.1 p.2, by simp [display_workflows, hd], ?_⟩
  simp

/-- Witness for C10 on a response whose `total_count` (5) disagrees with its
one-element workflows array: exactly one block is rendered. -/
theorem C10_block_count_witness :
    decodeWorkflowResponse listJson5 = some ⟨5, [wf1]⟩ ∧
    ∃ blocks, display_workflows env404 listJson5 = .ok (5, blocks) ∧ blocks.length = 1 :=
  ⟨rfl, C10_block_count env404 listJson5 5 [wf1] rfl⟩
